import Mathlib

/-!
A verification model of the esports data-scraping pipeline
(`data_scraper.py`): cleaning rules, multi-page aggregation, schema
initialization, deduplication, bulk loading and the orchestrating `main`.

Raw scraped cells are strings; cleaned cells are strings, integers or
floats.  Floats are modelled exactly as rationals.  Operations that raise
in the original (pandas `astype`, column-label assignment of the wrong
length, SQL errors) are modelled with `Except String` results.
-/

set_option autoImplicit false

instance exceptDecEq {ε α : Type} [DecidableEq ε] [DecidableEq α] :
    DecidableEq (Except ε α) := fun a b =>
  match a, b with
  | .ok x, .ok y =>
    if h : x = y then .isTrue (by rw [h]) else .isFalse (fun hh => by cases hh; exact h rfl)
  | .error x, .error y =>
    if h : x = y then .isTrue (by rw [h]) else .isFalse (fun hh => by cases hh; exact h rfl)
  | .ok _, .error _ => .isFalse (fun hh => by cases hh)
  | .error _, .ok _ => .isFalse (fun hh => by cases hh)

/-- A cell value in a data frame: raw cells are strings; cleaning produces
typed values.  Floats are modelled as exact rationals. -/
inductive Value : Type where
  | str (s : String)
  | int (n : Int)
  | float (q : Rat)
  deriving DecidableEq, Repr

/-- The numeric value of a list of decimal digit characters (most
significant first), as `int`/`float` parse it. -/
def digitsVal (ds : List Char) : Nat :=
  ds.foldl (fun n c => 10 * n + (c.toNat - Char.toNat ('0'))) 0

/-- Splits a character list at the first `.`: integer part, and the
fractional part when a dot is present. -/
def splitDot : List Char → List Char × Option (List Char)
  | [] => ([], none)
  | c :: rest =>
    if c = '.' then ([], some rest)
    else
      let p := splitDot rest
      (c :: p.1, p.2)

/-- Parses a nonnegative decimal numeral, as Python `float` /
`pandas.to_numeric` parse the numerals occurring in the scraped data;
`none` models a `ValueError` (or a coerced `NaN`). -/
def parseFloat? (s : String) : Option Rat :=
  match splitDot s.data with
  | (a, none) =>
    if !a.isEmpty && a.all Char.isDigit then some ((digitsVal a : Nat) : Rat) else none
  | (a, some b) =>
    if !a.isEmpty && a.all Char.isDigit && !b.isEmpty && b.all Char.isDigit then
      some (((digitsVal a : Nat) : Rat) + ((digitsVal b : Nat) : Rat) / (10 : Rat) ^ b.length)
    else none

/-- Truncation toward zero, as Python `int()` / `astype(int)` applied to a
float. -/
def truncRat (q : Rat) : Int :=
  Int.tdiv q.num (q.den : Int)

/-- One step of literal substring replacement, fuelled so that the
recursion is structural; `replaceAllL` supplies enough fuel. -/
def replaceFuel (pat : List Char) : Nat → List Char → List Char
  | 0, s => s
  | _ + 1, [] => []
  | fuel + 1, c :: rest =>
    if !pat.isEmpty && pat.isPrefixOf (c :: rest) then
      replaceFuel pat fuel ((c :: rest).drop pat.length)
    else
      c :: replaceFuel pat fuel rest

/-- Replaces every occurrence of the literal pattern `pat` in `s`, as
pandas `Series.str.replace(pat, "")` with a literal pattern does. -/
def replaceAllL (s pat : List Char) : List Char :=
  replaceFuel pat s.length s

/-- The string form of a value, as pandas `astype(str)` renders it. -/
def valueToString : Value → String
  | .str s => s
  | .int n => toString n
  | .float q => toString q

/-- `astype(str)`: stringify a cell. -/
def astype_str (v : Value) : Value :=
  .str (valueToString v)

/-- `Series.replace(r'[\$,]', '', regex=True)` on one cell: every `$` and
`,` character is removed. -/
def stripCurrency (s : String) : String :=
  String.mk (s.data.filter (fun c => !(c = '$' || c = ',')))

/-- The error message `astype(float)` raises on an unparsable cell. -/
def floatErrMsg (s : String) : String :=
  "could not convert string to float: " ++ s

/-- Currency cleaning as `scrape_countries` applies it to
`total_earnings` / `game_earnings`: strip `$` and `,`, then
`astype(float)`.  An unparsable remainder is an error (a raised
`ValueError`), not a default. -/
def clean_currency_float (v : Value) : Except String Value :=
  let s := stripCurrency (valueToString v)
  match parseFloat? s with
  | some q => .ok (.float q)
  | none => .error (floatErrMsg s)

/-- Currency cleaning followed by `astype(int)` truncation, as
`scrape_players` (`total_earnings`), `scrape_tournaments` (`prize_pool`)
and `scrape_teams` (`revenue`) apply it. -/
def clean_currency_int (v : Value) : Except String Value :=
  let s := stripCurrency (valueToString v)
  match parseFloat? s with
  | some q => .ok (.int (truncRat q))
  | none => .error (floatErrMsg s)

/-- Percentage cleaning: `astype(str)`, strip every `%`, `astype(float)`.
Unparsable values raise. -/
def clean_percent_float (v : Value) : Except String Value :=
  let s := String.mk ((valueToString v).data.filter (fun c => !(c = '%')))
  match parseFloat? s with
  | some q => .ok (.float q)
  | none => .error (floatErrMsg s)

/-- `num_players` cleaning in `scrape_countries`: `astype(str)`, strip
every non-digit character, `astype(int)`.  When nothing remains,
`astype(int)` on the empty string raises. -/
def clean_digits_int (v : Value) : Except String Value :=
  let ds := (valueToString v).data.filter Char.isDigit
  if ds.isEmpty then .error ("invalid literal for int: " ++ valueToString v)
  else .ok (.int (Int.ofNat (digitsVal ds)))

/-- The literal pattern stripped from `tournaments_played` cells. -/
def tournPat : List Char :=
  String.data (" Tournaments")

/-- `tournaments_played` cleaning in `scrape_teams`: `astype(str)`,
strip the literal `" Tournaments"`, strip commas, then
`pd.to_numeric(errors='coerce').fillna(0).astype(int)` — never raises,
unparsable values become `0`. -/
def clean_tournaments_played (v : Value) : Value :=
  let s1 := replaceAllL (valueToString v).data tournPat
  let s2 := replaceAllL s1 [',']
  match parseFloat? (String.mk s2) with
  | some q => .int (truncRat q)
  | none => .int 0

/-- A data frame: ordered column labels and rows of cells, addressed
positionally. -/
structure DataFrame : Type where
  cols : List String
  rows : List (List Value)
  deriving DecidableEq, Repr

/-- `df.columns = names`: pandas raises `ValueError` when the number of
labels differs from the number of columns. -/
def setColumns (df : DataFrame) (names : List String) : Except String DataFrame :=
  if names.length = df.cols.length then
    .ok { cols := names, rows := df.rows }
  else
    .error ("Length mismatch: Expected axis has " ++ toString df.cols.length ++
      " elements, new values have " ++ toString names.length ++ " elements")

/-- The positional index of a column label. -/
def colIdx (df : DataFrame) (name : String) : Option Nat :=
  df.cols.findIdx? (fun c => c == name)

/-- `df[name] = df[name].map f` where the cleaning function `f` may raise:
the first failing cell aborts the whole column assignment, as a raised
`ValueError` does in pandas. -/
def mapCol (df : DataFrame) (name : String) (f : Value → Except String Value) :
    Except String DataFrame :=
  match colIdx df name with
  | none => .error ("KeyError: " ++ name)
  | some i => do
    let rows ← df.rows.mapM (fun r =>
      match r[i]? with
      | some v => do
        let v' ← f v
        pure (r.set i v')
      | none => Except.error ("missing cell in column " ++ name))
    pure { df with rows := rows }

/-- `df[[names]]`: column projection by label (labels produced by the
pipeline itself, hence present). -/
def selectCols (df : DataFrame) (names : List String) : DataFrame :=
  { cols := names
    rows := df.rows.map (fun r =>
      names.map (fun n =>
        match colIdx df n with
        | some i => r.getD i (.str (""))
        | none => .str (""))) }

/-- `df.drop(columns=[name])`. -/
def dropColumn (df : DataFrame) (name : String) : DataFrame :=
  match colIdx df name with
  | none => df
  | some i => { cols := df.cols.eraseIdx i, rows := df.rows.map (fun r => r.eraseIdx i) }

/-- `df.iloc[:, :n]`: keep the first `n` columns. -/
def takeCols (df : DataFrame) (n : Nat) : DataFrame :=
  { cols := df.cols.take n, rows := df.rows.map (fun r => r.take n) }

/-- `drop_duplicates` worker: keeps each row not seen before, threading
the set of rows already emitted. -/
def dropDupsAux {α : Type} [DecidableEq α] (seen : List α) : List α → List α
  | [] => []
  | x :: xs => if x ∈ seen then dropDupsAux seen xs else x :: dropDupsAux (x :: seen) xs

/-- `DataFrame.drop_duplicates()` on the row list: removes every row whose
full field-value tuple appeared earlier, keeping the first occurrence. -/
def drop_duplicates {α : Type} [DecidableEq α] (l : List α) : List α :=
  dropDupsAux [] l

/-- `df.drop_duplicates()`. -/
def dropDuplicatesDF (df : DataFrame) : DataFrame :=
  { df with rows := drop_duplicates df.rows }

/-- `pd.concat(frames, ignore_index=True)` for frames sharing one schema:
the rows are concatenated in frame order. -/
def concatFrames (frames : List DataFrame) : DataFrame :=
  { cols := (frames.headD { cols := [], rows := [] }).cols
    rows := (frames.map DataFrame.rows).flatten }

/-- `fetch_multiple_tables`: given the per-page fetch results (in locator
order; `none` is a failed page), drop the failures and concatenate the
successes; when every page failed the result is `None`, not a table. -/
def fetch_multiple_tables (pages : List (Option DataFrame)) : Option DataFrame :=
  let frames := pages.filterMap id
  if frames.isEmpty then none else some (concatFrames frames)

/-- A target table's schema: the surrogate auto-increment primary-key
column and the remaining columns with their SQL types, as written in
`init_database`. -/
structure TableSchema : Type where
  surrogateKey : String
  columns : List (String × String)
  deriving DecidableEq, Repr

/-- A stored table: its schema and its rows (non-key cells, in schema
column order; the surrogate key is assigned by the store). -/
structure Table : Type where
  schema : TableSchema
  rows : List (List Value)
  deriving DecidableEq, Repr

/-- The relational store: named tables. -/
structure DB : Type where
  tables : List (String × Table)
  deriving DecidableEq, Repr

/-- Looks a table up by name. -/
def DB.lookup (db : DB) (name : String) : Option Table :=
  List.lookup name db.tables

/-- `CREATE TABLE IF NOT EXISTS`: when the name is present nothing at all
changes; otherwise an empty table with the given schema is added. -/
def createTableIfNotExists (db : DB) (name : String) (schema : TableSchema) : DB :=
  match db.lookup name with
  | some _ => db
  | none => { tables := db.tables ++ [(name, { schema := schema, rows := [] })] }

/-- The `countries` schema of `init_database`. -/
def countriesSchema : TableSchema :=
  { surrogateKey := "id"
    columns := [("name", "VARCHAR(100)"), ("total_earnings", "BIGINT"),
      ("num_players", "INT"), ("top_game", "VARCHAR(100)"),
      ("game_earnings", "BIGINT"), ("game_percent", "FLOAT")] }

/-- The `players` schema of `init_database` (its surrogate key is the
auto-increment column named `rank`). -/
def playersSchema : TableSchema :=
  { surrogateKey := "rank"
    columns := [("player_id", "VARCHAR(100)"), ("player_name", "VARCHAR(100)"),
      ("total_earnings", "BIGINT"), ("main_game", "VARCHAR(100)"),
      ("earnings_percent", "FLOAT")] }

/-- The `tournaments` schema of `init_database`: beyond the three
canonical fields it also declares `participate_team` and `no_of_player`. -/
def tournamentsSchema : TableSchema :=
  { surrogateKey := "id"
    columns := [("tournament_name", "VARCHAR(200)"), ("prize_pool", "BIGINT"),
      ("game", "VARCHAR(100)"), ("participate_team", "INT"), ("no_of_player", "INT")] }

/-- The `teams` schema of `init_database`. -/
def teamsSchema : TableSchema :=
  { surrogateKey := "id"
    columns := [("team_name", "VARCHAR(255)"), ("revenue", "INT"),
      ("tournaments_played", "INT")] }

/-- `init_database`: `CREATE TABLE IF NOT EXISTS` for the four target
relations, in source order. -/
def init_database (db : DB) : DB :=
  createTableIfNotExists
    (createTableIfNotExists
      (createTableIfNotExists
        (createTableIfNotExists db ("countries") countriesSchema)
        ("players") playersSchema)
      ("tournaments") tournamentsSchema)
    ("teams") teamsSchema

/-- Appends rows to a named table, leaving every other table unchanged. -/
def DB.appendRows (db : DB) (name : String) (newRows : List (List Value)) : DB :=
  { tables := db.tables.map (fun p =>
      if p.1 == name then (p.1, { p.2 with rows := p.2.rows ++ newRows }) else p) }

/-- The observable outcome of one `insert_into_mysql` call: the store
afterwards, the lines printed, and how many store connections were
opened. -/
structure InsertOut : Type where
  db : DB
  log : List String
  connectionsOpened : Nat
  deriving DecidableEq, Repr

/-- `insert_into_mysql`: a missing or empty frame prints a warning and
returns before any connection is opened; otherwise the selected columns
are inserted, and a store-level failure is caught and printed. -/
def insert_into_mysql (df : Option DataFrame) (table : String) (columns : List String)
    (db : DB) : InsertOut :=
  match df with
  | none => { db := db, log := ["⚠️ No data for table " ++ table], connectionsOpened := 0 }
  | some d =>
    if d.rows.isEmpty then
      { db := db, log := ["⚠️ No data for table " ++ table], connectionsOpened := 0 }
    else
      let data := (selectCols d columns).rows
      match db.lookup table with
      | some _ =>
        { db := db.appendRows table data
          log := ["✅ Inserted " ++ toString data.length ++ " rows into " ++ table]
          connectionsOpened := 1 }
      | none =>
        { db := db, log := ["❌ Insert error in " ++ table], connectionsOpened := 1 }

/-- The outcome of one pipeline step: the store afterwards, the lines
printed, and the uncaught exception when one escaped. -/
structure StepOut : Type where
  db : DB
  log : List String
  err : Option String
  deriving DecidableEq, Repr

/-- Sequencing of `main`: an uncaught exception from an earlier dataset
aborts the run, so a later dataset never executes. -/
def andThen (s : StepOut) (f : DB → StepOut) : StepOut :=
  match s.err with
  | some _ => s
  | none =>
    let t := f s.db
    { db := t.db, log := s.log ++ t.log, err := t.err }

/-- Comma-joins a list of column labels for display. -/
def joinComma : List String → String
  | [] => ""
  | [s] => s
  | s :: rest => s ++ ", " ++ joinComma rest

/-- The columns-available line printed by `scrape_players` /
`scrape_teams`. -/
def availColsMsg (which : String) (cols : List String) : String :=
  "📊 Available columns in scraped '" ++ which ++ "': " ++ joinComma cols

/-- The canonical insert columns of the countries dataset. -/
def countriesCols : List String :=
  ["name", "total_earnings", "num_players", "top_game", "game_earnings", "game_percent"]

/-- The cleaning chain of `scrape_countries` after a successful fetch:
relabel the seven raw columns, clean each field, project the canonical
six and deduplicate. -/
def processCountries (df : DataFrame) : Except String DataFrame := do
  let df ← setColumns df (["rank"] ++ countriesCols)
  let df ← mapCol df ("name") (fun v => .ok (astype_str v))
  let df ← mapCol df ("total_earnings") clean_currency_float
  let df ← mapCol df ("num_players") clean_digits_int
  let df ← mapCol df ("top_game") (fun v => .ok (astype_str v))
  let df ← mapCol df ("game_earnings") clean_currency_float
  let df ← mapCol df ("game_percent") clean_percent_float
  pure (dropDuplicatesDF (selectCols df countriesCols))

/-- `scrape_countries`, given the fetch result of its single page. -/
def scrape_countries (fetched : Option DataFrame) (db : DB) : StepOut :=
  match fetched with
  | none =>
    { db := db, log := ["\n🌍 Scraping Countries", "⚠️ No country data found."], err := none }
  | some df =>
    match processCountries df with
    | .error e => { db := db, log := ["\n🌍 Scraping Countries"], err := some e }
    | .ok cleaned =>
      let out := insert_into_mysql (some cleaned) ("countries") countriesCols db
      { db := out.db, log := ["\n🌍 Scraping Countries"] ++ out.log, err := none }

/-- The canonical insert columns of the players dataset. -/
def playersCols : List String :=
  ["player_id", "player_name", "total_earnings", "main_game", "earnings_percent"]

/-- The cleaning chain of `scrape_players` after a successful fetch: drop
the stray encoding column when present, relabel the six raw columns,
clean each field, project the canonical five and deduplicate. -/
def processPlayers (df : DataFrame) : Except String DataFrame := do
  let df := if ("Â") ∈ df.cols then dropColumn df ("Â") else df
  let df ← setColumns df ["player_id", "player_name", "total_earnings",
    "main_game", "game_earnings", "earnings_percent"]
  let df ← mapCol df ("player_id") (fun v => .ok (astype_str v))
  let df ← mapCol df ("player_name") (fun v => .ok (astype_str v))
  let df ← mapCol df ("total_earnings") clean_currency_int
  let df ← mapCol df ("main_game") (fun v => .ok (astype_str v))
  let df ← mapCol df ("earnings_percent") clean_percent_float
  pure (dropDuplicatesDF (selectCols df playersCols))

/-- `scrape_players`, given the per-page fetch results. -/
def scrape_players (pages : List (Option DataFrame)) (db : DB) : StepOut :=
  match fetch_multiple_tables pages with
  | none =>
    { db := db, log := ["\n👥 Scraping Players", "❌ Failed to fetch player data."], err := none }
  | some df =>
    match processPlayers df with
    | .error e =>
      { db := db, log := ["\n👥 Scraping Players", availColsMsg ("players") df.cols]
        err := some e }
    | .ok cleaned =>
      let out := insert_into_mysql (some cleaned) ("players") playersCols db
      { db := out.db
        log := ["\n👥 Scraping Players", availColsMsg ("players") df.cols] ++ out.log
        err := none }

/-- The canonical insert columns of the tournaments dataset. -/
def tournamentsCols : List String :=
  ["tournament_name", "prize_pool", "game"]

/-- The cleaning chain of `scrape_tournaments` on the concatenated pages:
keep the first four columns, relabel them, clean the prize pool, project
the canonical three and deduplicate. -/
def processTournaments (df : DataFrame) : Except String DataFrame := do
  let df := takeCols df 4
  let df ← setColumns df ["rank", "tournament_name", "prize_pool", "game"]
  let df ← mapCol df ("prize_pool") clean_currency_int
  pure (dropDuplicatesDF (selectCols df tournamentsCols))

/-- `scrape_tournaments`, given the per-page fetch results (its own fetch
loop is the same drop-failures aggregation as `fetch_multiple_tables`). -/
def scrape_tournaments (pages : List (Option DataFrame)) (db : DB) : StepOut :=
  let header := "\n🏆 Scraping Top Tournaments (First 4 Columns Only)"
  let dfs := pages.filterMap id
  if dfs.isEmpty then
    { db := db, log := [header, "❌ No tournament data fetched."], err := none }
  else
    match processTournaments (concatFrames dfs) with
    | .error e => { db := db, log := [header], err := some e }
    | .ok cleaned =>
      let out := insert_into_mysql (some cleaned) ("tournaments") tournamentsCols db
      { db := out.db, log := [header] ++ out.log, err := none }

/-- The canonical insert columns of the teams dataset. -/
def teamsCols : List String :=
  ["team_name", "revenue", "tournaments_played"]

/-- The cleaning chain of `scrape_teams` after a successful fetch: relabel
the four raw columns, clean each field, project the canonical three and
deduplicate. -/
def processTeams (df : DataFrame) : Except String DataFrame := do
  let df ← setColumns df ["rank", "team_name", "revenue", "tournaments_played"]
  let df ← mapCol df ("team_name") (fun v => .ok (astype_str v))
  let df ← mapCol df ("revenue") clean_currency_int
  let df ← mapCol df ("tournaments_played") (fun v => .ok (clean_tournaments_played v))
  pure (dropDuplicatesDF (selectCols df teamsCols))

/-- `scrape_teams`, given the per-page fetch results. -/
def scrape_teams (pages : List (Option DataFrame)) (db : DB) : StepOut :=
  match fetch_multiple_tables pages with
  | none =>
    { db := db
      log := ["\n🎮 Scraping Teams", "\n📁 Data successfully saved to 'top_500_esports_players.csv'",
        "❌ Failed to fetch team data."]
      err := none }
  | some df =>
    match processTeams df with
    | .error e =>
      { db := db, log := ["\n🎮 Scraping Teams", availColsMsg ("teams") df.cols], err := some e }
    | .ok cleaned =>
      let out := insert_into_mysql (some cleaned) ("teams") teamsCols db
      { db := out.db
        log := ["\n🎮 Scraping Teams", availColsMsg ("teams") df.cols] ++ out.log
        err := none }

/-- The fetch results the environment supplies to one run: one page for
countries, a page list for each multi-page dataset (`none` = the fetch of
that page failed). -/
structure Env : Type where
  countries : Option DataFrame
  players : List (Option DataFrame)
  tournaments : List (Option DataFrame)
  teams : List (Option DataFrame)
  deriving DecidableEq, Repr

/-- `main`: initialize the schema, then run the four datasets in the
fixed source order; an uncaught exception aborts the remainder of the
run. -/
def main_run (env : Env) (db : DB) : StepOut :=
  let s0 : StepOut :=
    { db := init_database db, log := ["🚀 Starting Esports Scraper + DB Inserter"], err := none }
  let s1 := andThen s0 (scrape_countries env.countries)
  let s2 := andThen s1 (scrape_players env.players)
  let s3 := andThen s2 (scrape_tournaments env.tournaments)
  let s4 := andThen s3 (scrape_teams env.teams)
  match s4.err with
  | some _ => s4
  | none => { s4 with log := s4.log ++ ["\n✅ All data scraped and inserted successfully!"] }

/-- The shape of a currency string body: the comma-separated digit
groups, rendered in source order. -/
def renderGroups : List (List Char) → List Char
  | [] => []
  | [g] => g
  | g :: gs => g ++ ',' :: renderGroups gs

/-- A raw teams page exactly as the spec's end-to-end example writes its
rows: three columns, no rank column. -/
def teamsRawPage3 : DataFrame :=
  { cols := ["c0", "c1", "c2"]
    rows := [[.str ("TeamA"), .str ("$500"), .str ("10 Tournaments")],
             [.str ("TeamA"), .str ("$500"), .str ("10 Tournaments")],
             [.str ("TeamB"), .str ("$300"), .str ("4 Tournaments")]] }

/-- The same team rows with the rank column the real source pages carry
(four raw columns, as `scrape_teams` expects). -/
def teamsRawPage4 : DataFrame :=
  { cols := ["c0", "c1", "c2", "c3"]
    rows := [[.str ("1"), .str ("TeamA"), .str ("$500"), .str ("10 Tournaments")],
             [.str ("2"), .str ("TeamA"), .str ("$500"), .str ("10 Tournaments")],
             [.str ("3"), .str ("TeamB"), .str ("$300"), .str ("4 Tournaments")]] }

/-- A countries page whose column count (3) differs from the expected
seven raw columns. -/
def countriesBadPage : DataFrame :=
  { cols := ["c0", "c1", "c2"]
    rows := [[.str ("India"), .str ("$1"), .str ("2")]] }

/-- Two small successful pages for aggregator examples. -/
def pageA : DataFrame :=
  { cols := ["x"], rows := [[.str ("a1")], [.str ("a2")]] }

/-- Second successful page for aggregator examples. -/
def pageB : DataFrame :=
  { cols := ["x"], rows := [[.str ("b1")]] }

/-- An environment where the countries page arrives with the wrong number
of columns and every other dataset has no pages. -/
def envCountriesBad : Env :=
  { countries := some countriesBadPage, players := [], tournaments := [], teams := [] }

/-- An environment where only the teams dataset has a page, and that page
has the wrong number of columns. -/
def envTeamsBad : Env :=
  { countries := none, players := [], tournaments := [], teams := [some teamsRawPage3] }

/-- An environment where every fetch fails: each dataset ends with zero
rows. -/
def envAllEmpty : Env :=
  { countries := none, players := [], tournaments := [], teams := [] }

/-- A per-dataset status line for one target table: the loader's inserted
row count, its no-data warning, its caught insert error, or the given
dataset-specific fetch-failure line. -/
def isStatusFor (table fetchFailLine : String) (s : String) : Prop :=
  s = fetchFailLine ∨ s = "⚠️ No data for table " ++ table ∨
    s = "❌ Insert error in " ++ table ∨
    ∃ n : Nat, s = "✅ Inserted " ++ toString n ++ " rows into " ++ table

/-- A per-dataset status line for countries: the inserted row count, or
the failure reason. -/
def isCountriesStatus (s : String) : Prop :=
  isStatusFor ("countries") ("⚠️ No country data found.") s

/-- A per-dataset status line for players. -/
def isPlayersStatus (s : String) : Prop :=
  isStatusFor ("players") ("❌ Failed to fetch player data.") s

/-- A per-dataset status line for tournaments. -/
def isTournamentsStatus (s : String) : Prop :=
  isStatusFor ("tournaments") ("❌ No tournament data fetched.") s

/-- A per-dataset status line for teams. -/
def isTeamsStatus (s : String) : Prop :=
  isStatusFor ("teams") ("❌ Failed to fetch team data.") s

section DedupLemmas

variable {α : Type} [DecidableEq α]

theorem dropDupsAux_sublist (seen l : List α) : List.Sublist (dropDupsAux seen l) l := by
  induction l generalizing seen with
  | nil => simp [dropDupsAux]
  | cons x xs ih =>
    by_cases hx : x ∈ seen
    · simpa [dropDupsAux, hx] using (ih seen).cons x
    · simpa [dropDupsAux, hx] using (ih (x :: seen)).cons₂ x

theorem mem_dropDupsAux {a : α} (seen l : List α) :
    a ∈ dropDupsAux seen l ↔ a ∈ l ∧ a ∉ seen := by
  induction l generalizing seen with
  | nil => simp [dropDupsAux]
  | cons x xs ih =>
    by_cases hx : x ∈ seen
    · simp only [dropDupsAux, if_pos hx, ih, List.mem_cons]
      constructor
      · exact fun ⟨h1, h2⟩ => ⟨Or.inr h1, h2⟩
      · rintro ⟨h1 | h1, h2⟩
        · exact absurd (h1 ▸ hx) h2
        · exact ⟨h1, h2⟩
    · simp only [dropDupsAux, if_neg hx, List.mem_cons, ih]
      by_cases hax : a = x
      · subst hax
        simp [hx]
      · tauto

theorem nodup_dropDupsAux (seen l : List α) : (dropDupsAux seen l).Nodup := by
  induction l generalizing seen with
  | nil => simp [dropDupsAux]
  | cons x xs ih =>
    by_cases hx : x ∈ seen
    · simpa [dropDupsAux, hx] using ih seen
    · simp only [dropDupsAux, if_neg hx, List.nodup_cons]
      refine ⟨fun hmem => ?_, ih (x :: seen)⟩
      exact ((mem_dropDupsAux _ _).1 hmem).2 (List.mem_cons_self x seen)

theorem dropDupsAux_eq_self (seen l : List α) (hl : l.Nodup)
    (hs : ∀ a ∈ l, a ∉ seen) : dropDupsAux seen l = l := by
  induction l generalizing seen with
  | nil => rfl
  | cons x xs ih =>
    have hx : x ∉ seen := hs x (List.mem_cons_self x xs)
    simp only [dropDupsAux, if_neg hx]
    have hxs : xs.Nodup := (List.nodup_cons.1 hl).2
    have hnot : x ∉ xs := (List.nodup_cons.1 hl).1
    refine congrArg (x :: ·) (ih (x :: seen) hxs fun a ha => ?_)
    intro hmem
    rcases List.mem_cons.1 hmem with rfl | hmem'
    · exact hnot ha
    · exact hs a (List.mem_cons_of_mem _ ha) hmem'

theorem dropDupsAux_congr (seen seen' l : List α)
    (h : ∀ a : α, a ∈ seen ↔ a ∈ seen') :
    dropDupsAux seen l = dropDupsAux seen' l := by
  induction l generalizing seen seen' with
  | nil => rfl
  | cons x xs ih =>
    by_cases hx : x ∈ seen
    · rw [dropDupsAux, dropDupsAux, if_pos hx, if_pos ((h x).1 hx)]
      exact ih seen seen' h
    · rw [dropDupsAux, dropDupsAux, if_neg hx, if_neg (fun hx' => hx ((h x).2 hx'))]
      refine congrArg (x :: ·) (ih (x :: seen) (x :: seen') fun a => ?_)
      simp [h a]

theorem dropDupsAux_cons_filter (x : α) (seen l : List α) :
    dropDupsAux (x :: seen) l = dropDupsAux seen (l.filter (fun y => decide (y ≠ x))) := by
  induction l generalizing seen with
  | nil => rfl
  | cons y ys ih =>
    by_cases hyx : y = x
    · subst hyx
      have : decide (y ≠ y) = false := by simp
      rw [List.filter_cons, this]
      simp only [dropDupsAux, if_pos (List.mem_cons_self y seen)]
      exact ih seen
    · have hkeep : decide (y ≠ x) = true := by simp [hyx]
      rw [List.filter_cons, hkeep]
      by_cases hys : y ∈ seen
      · have h1 : y ∈ x :: seen := List.mem_cons_of_mem _ hys
        simp only [dropDupsAux, if_pos h1, if_pos hys]
        exact ih seen
      · have h1 : y ∉ x :: seen := by
          intro hmem
          rcases List.mem_cons.1 hmem with h | h
          · exact hyx h
          · exact hys h
        simp only [dropDupsAux, if_neg h1, if_neg hys]
        refine congrArg (y :: ·) ?_
        calc dropDupsAux (y :: x :: seen) ys
            = dropDupsAux (x :: y :: seen) ys := by
              refine dropDupsAux_congr _ _ _ fun a => ?_
              constructor <;> (intro h; simp only [List.mem_cons] at h ⊢; tauto)
          _ = dropDupsAux (y :: seen) (ys.filter (fun y' => decide (y' ≠ x))) := ih (y :: seen)

theorem drop_duplicates_sublist (l : List α) : List.Sublist (drop_duplicates l) l :=
  dropDupsAux_sublist [] l

theorem mem_drop_duplicates {a : α} (l : List α) : a ∈ drop_duplicates l ↔ a ∈ l := by
  simp [drop_duplicates, mem_dropDupsAux]

theorem nodup_drop_duplicates (l : List α) : (drop_duplicates l).Nodup :=
  nodup_dropDupsAux [] l

theorem drop_duplicates_idem (l : List α) :
    drop_duplicates (drop_duplicates l) = drop_duplicates l :=
  dropDupsAux_eq_self [] _ (nodup_drop_duplicates l) (by simp)

theorem drop_duplicates_toFinset (l : List α) :
    (drop_duplicates l).toFinset = l.toFinset := by
  ext a
  simp [mem_drop_duplicates]

theorem drop_duplicates_length (l : List α) :
    (drop_duplicates l).length = l.toFinset.card := by
  rw [← drop_duplicates_toFinset, List.toFinset_card_of_nodup (nodup_drop_duplicates l)]

theorem drop_duplicates_cons (x : α) (xs : List α) :
    drop_duplicates (x :: xs) = x :: drop_duplicates (xs.filter (fun y => decide (y ≠ x))) := by
  show dropDupsAux [] (x :: xs) = _
  rw [dropDupsAux, if_neg (List.not_mem_nil x)]
  exact congrArg (x :: ·) (dropDupsAux_cons_filter x [] xs)

end DedupLemmas

section CleaningLemmas

theorem truncRat_natCast (n : Nat) : truncRat ((n : Nat) : Rat) = (n : Int) := by
  simp [truncRat, Rat.num_natCast, Rat.den_natCast]

theorem char_ne_of_isDigit {c d : Char} (h : c.isDigit = true) (hd : d.isDigit = false) :
    c ≠ d := by
  intro hcd
  rw [hcd, hd] at h
  cases h

theorem filter_keep_of_all_digits (g : List Char) (h : ∀ c ∈ g, c.isDigit = true) :
    g.filter (fun c => !(c = '$' || c = ',')) = g := by
  refine List.filter_eq_self.2 fun c hc => ?_
  have h1 : c ≠ '$' := char_ne_of_isDigit (h c hc) (by decide)
  have h2 : c ≠ ',' := char_ne_of_isDigit (h c hc) (by decide)
  simp [h1, h2]

theorem filter_keep_renderGroups (groups : List (List Char))
    (h : ∀ g ∈ groups, ∀ c ∈ g, c.isDigit = true) :
    (renderGroups groups).filter (fun c => !(c = '$' || c = ',')) = groups.flatten := by
  induction groups with
  | nil => rfl
  | cons g gs ih =>
    cases gs with
    | nil =>
      simp only [renderGroups, List.flatten_cons, List.flatten_nil, List.append_nil]
      exact filter_keep_of_all_digits g (h g (List.mem_cons_self g []))
    | cons g' gs' =>
      have hg : ∀ c ∈ g, c.isDigit = true := h g (List.mem_cons_self g _)
      have hrest : ∀ g₀ ∈ g' :: gs', ∀ c ∈ g₀, c.isDigit = true :=
        fun g₀ hg₀ => h g₀ (List.mem_cons_of_mem _ hg₀)
      simp only [renderGroups, List.flatten_cons, List.filter_append,
        filter_keep_of_all_digits g hg, List.filter_cons]
      rw [if_neg (by decide)]
      exact congrArg (g ++ ·) (ih hrest)

theorem splitDot_of_all_digits (ds : List Char) (h : ∀ c ∈ ds, c.isDigit = true) :
    splitDot ds = (ds, none) := by
  induction ds with
  | nil => rfl
  | cons c rest ih =>
    have hc : c ≠ '.' := char_ne_of_isDigit (h c (List.mem_cons_self c rest)) (by decide)
    have := ih fun c' hc' => h c' (List.mem_cons_of_mem _ hc')
    simp [splitDot, hc, this]

theorem parseFloat?_digits (ds : List Char) (hne : ds ≠ [])
    (h : ∀ c ∈ ds, c.isDigit = true) :
    parseFloat? (String.mk ds) = some ((digitsVal ds : Nat) : Rat) := by
  have hdata : (String.mk ds).data = ds := rfl
  have hempty : ds.isEmpty = false := by
    cases ds with
    | nil => exact absurd rfl hne
    | cons c rest => rfl
  have hall : ds.all Char.isDigit = true := List.all_eq_true.2 h
  rw [parseFloat?, hdata, splitDot_of_all_digits ds h]
  simp [hempty, hall]

theorem replaceFuel_nil (pat : List Char) (fuel : Nat) : replaceFuel pat fuel [] = [] := by
  cases fuel <;> rfl

theorem replaceFuel_of_head_not_mem (p : Char) (pt s : List Char) (hp : p ∉ s) :
    ∀ fuel, replaceFuel (p :: pt) fuel s = s := by
  intro fuel
  induction fuel generalizing s with
  | zero => rfl
  | succ f ih =>
    cases s with
    | nil => rfl
    | cons c rest =>
      have hne : p ≠ c := fun h => hp (h ▸ List.mem_cons_self c rest)
      have hpre : (p :: pt).isPrefixOf (c :: rest) = false := by
        simp [List.isPrefixOf, hne]
      have hrest : p ∉ rest := fun h => hp (List.mem_cons_of_mem _ h)
      simp [replaceFuel, hpre, ih rest hrest]

theorem tournPat_head : tournPat = ' ' :: String.data ("Tournaments") := by decide

theorem replaceFuel_digits_tournPat (ds : List Char) (h : ∀ c ∈ ds, c.isDigit = true) :
    ∀ fuel, (ds ++ tournPat).length ≤ fuel →
      replaceFuel tournPat fuel (ds ++ tournPat) = ds := by
  induction ds with
  | nil =>
    intro fuel hfuel
    simp only [List.nil_append] at hfuel ⊢
    cases fuel with
    | zero => exact absurd hfuel (by decide)
    | succ f =>
      have hpre : (!tournPat.isEmpty && tournPat.isPrefixOf tournPat) = true := by decide
      have hdrop : tournPat.drop tournPat.length = [] := by decide
      rw [show replaceFuel tournPat (f + 1) tournPat =
        (if (!tournPat.isEmpty && tournPat.isPrefixOf tournPat) = true then
          replaceFuel tournPat f (tournPat.drop tournPat.length)
        else ' ' :: replaceFuel tournPat f (String.data ("Tournaments"))) from by
          rw [tournPat_head]
          rfl]
      rw [if_pos hpre, hdrop, replaceFuel_nil]
  | cons d rest ih =>
    intro fuel hfuel
    cases fuel with
    | zero =>
      exact absurd hfuel (by simp)
    | succ f =>
      have hd : d.isDigit = true := h d (List.mem_cons_self d rest)
      have hne : ' ' ≠ d := (char_ne_of_isDigit hd (by decide)).symm
      have hpre : tournPat.isPrefixOf (d :: (rest ++ tournPat)) = false := by
        rw [tournPat_head]
        simp [List.isPrefixOf, hne]
      have hrest : (rest ++ tournPat).length ≤ f := by
        simpa [Nat.succ_le_succ_iff] using hfuel
      simp only [List.cons_append, replaceFuel, List.append_eq, hpre, Bool.and_false,
        Bool.false_eq_true, if_false]
      exact congrArg (d :: ·) (ih (fun c hc => h c (List.mem_cons_of_mem _ hc)) f hrest)

theorem replaceAllL_digits_tournPat (ds : List Char) (h : ∀ c ∈ ds, c.isDigit = true) :
    replaceAllL (ds ++ tournPat) tournPat = ds :=
  replaceFuel_digits_tournPat ds h _ (Nat.le_refl _)

theorem replaceAllL_comma_of_digits (ds : List Char) (h : ∀ c ∈ ds, c.isDigit = true) :
    replaceAllL ds [','] = ds := by
  refine replaceFuel_of_head_not_mem ',' [] ds (fun hmem => ?_) ds.length
  exact char_ne_of_isDigit (h ',' hmem) (by decide) rfl

end CleaningLemmas

/-- C4: for every currency-formatted string `"$" digits ("," digits)*`,
currency cleaning yields the numeric value with the symbol and thousands
separators removed, and the integer-target variant yields it truncated to
an integer. -/
theorem C4_currency_cleaning (groups : List (List Char))
    (hne : groups ≠ [])
    (hg : ∀ g ∈ groups, g ≠ [] ∧ ∀ c ∈ g, c.isDigit = true) :
    clean_currency_float (.str (String.mk ('$' :: renderGroups groups))) =
      .ok (.float ((digitsVal groups.flatten : Nat) : Rat)) ∧
    clean_currency_int (.str (String.mk ('$' :: renderGroups groups))) =
      .ok (.int (Int.ofNat (digitsVal groups.flatten))) := by
  have hdigits : ∀ g ∈ groups, ∀ c ∈ g, c.isDigit = true := fun g hgm => (hg g hgm).2
  have hstrip : stripCurrency (String.mk ('$' :: renderGroups groups)) =
      String.mk groups.flatten := by
    unfold stripCurrency
    rw [show (String.mk ('$' :: renderGroups groups)).data = '$' :: renderGroups groups from rfl]
    rw [List.filter_cons]
    rw [if_neg (by decide)]
    rw [filter_keep_renderGroups groups hdigits]
  have hflatne : groups.flatten ≠ [] := by
    cases groups with
    | nil => exact absurd rfl hne
    | cons g gs =>
      have hgne : g ≠ [] := (hg g (List.mem_cons_self g gs)).1
      cases g with
      | nil => exact absurd rfl hgne
      | cons c cs => simp [List.flatten_cons]
  have hflatdig : ∀ c ∈ groups.flatten, c.isDigit = true := by
    intro c hc
    obtain ⟨g, hgm, hcg⟩ := List.mem_flatten.1 hc
    exact hdigits g hgm c hcg
  have hparse := parseFloat?_digits groups.flatten hflatne hflatdig
  constructor
  · rw [clean_currency_float]
    rw [show valueToString (.str (String.mk ('$' :: renderGroups groups))) =
      String.mk ('$' :: renderGroups groups) from rfl]
    rw [hstrip, hparse]
  · rw [clean_currency_int]
    rw [show valueToString (.str (String.mk ('$' :: renderGroups groups))) =
      String.mk ('$' :: renderGroups groups) from rfl]
    rw [hstrip, hparse]
    exact congrArg (fun z => Except.ok (Value.int z)) (truncRat_natCast _)

/-- C4 witness: `"$1,234,567"` cleans to the number `1234567` (float
variant) and to the integer `1234567` (integer-target variant). -/
theorem C4_currency_cleaning_witness :
    clean_currency_float
        (.str (String.mk ('$' :: renderGroups [['1'], ['2', '3', '4'], ['5', '6', '7']]))) =
      .ok (.float ((digitsVal (List.flatten [['1'], ['2', '3', '4'], ['5', '6', '7']]) : Nat) : Rat)) ∧
    clean_currency_int
        (.str (String.mk ('$' :: renderGroups [['1'], ['2', '3', '4'], ['5', '6', '7']]))) =
      .ok (.int (Int.ofNat (digitsVal (List.flatten [['1'], ['2', '3', '4'], ['5', '6', '7']])))) :=
  C4_currency_cleaning [['1'], ['2', '3', '4'], ['5', '6', '7']] (by decide) (by decide)

/-- C8: for every unit-suffixed count `"N Tournaments"` the cleaning rule
yields the integer `N`, and every value that does not parse as a number
after stripping yields `0`. -/
theorem C8_unit_suffix_cleaning (ds : List Char) (s : String)
    (hne : ds ≠ []) (h : ∀ c ∈ ds, c.isDigit = true) :
    clean_tournaments_played (.str (String.mk (ds ++ tournPat))) =
      .int (Int.ofNat (digitsVal ds)) ∧
    (parseFloat? (String.mk (replaceAllL (replaceAllL s.data tournPat) [','])) = none →
      clean_tournaments_played (.str s) = .int 0) := by
  constructor
  · rw [clean_tournaments_played]
    rw [show valueToString (.str (String.mk (ds ++ tournPat))) = String.mk (ds ++ tournPat)
      from rfl]
    rw [show (String.mk (ds ++ tournPat)).data = ds ++ tournPat from rfl]
    rw [replaceAllL_digits_tournPat ds h, replaceAllL_comma_of_digits ds h,
      parseFloat?_digits ds hne h]
    exact congrArg Value.int (truncRat_natCast _)
  · intro hp
    rw [clean_tournaments_played]
    rw [show valueToString (.str s) = s from rfl]
    rw [hp]

/-- C8 witness: `"120 Tournaments"` cleans to `120`, and the unparsable
`"abc"` cleans to `0`. -/
theorem C8_unit_suffix_cleaning_witness :
    clean_tournaments_played (.str (String.mk (String.data ("120") ++ tournPat))) =
      .int (Int.ofNat (digitsVal (String.data ("120")))) ∧
    clean_tournaments_played (.str ("abc")) = .int 0 := by
  have h := C8_unit_suffix_cleaning (String.data ("120")) ("abc") (by decide) (by decide)
  exact ⟨h.1, h.2 (by decide)⟩

/-- C2 counterexample: the currency cleaning rule does not coerce an
unparsable value to a default — it raises, and the raised error escapes
the whole dataset (the teams pipeline aborts on one bad revenue cell). -/
theorem C2_counterexample :
    clean_currency_float (.str ("N/A")) = .error (floatErrMsg ("N/A")) ∧
    (scrape_teams
        [some { cols := ["c0", "c1", "c2", "c3"]
                rows := [[.str ("1"), .str ("TeamA"), .str ("N/A"),
                  .str ("10 Tournaments")]] }]
        (init_database { tables := [] })).err = some (floatErrMsg ("N/A")) := by
  constructor
  · rfl
  · rfl

/-- C2 as amended: only the unit-suffixed count rule coerces unparsable
values to a default (`0`), and the identity rule cannot fail; the
currency, percentage and digit-stripping rules raise an error on
unparsable values instead of coercing. -/
theorem C2_amended (s : String) :
    (parseFloat? (stripCurrency s) = none →
      clean_currency_float (.str s) = .error (floatErrMsg (stripCurrency s)) ∧
      clean_currency_int (.str s) = .error (floatErrMsg (stripCurrency s))) ∧
    (parseFloat? (String.mk (s.data.filter (fun c => !(c = '%')))) = none →
      clean_percent_float (.str s) =
        .error (floatErrMsg (String.mk (s.data.filter (fun c => !(c = '%')))))) ∧
    ((s.data.filter Char.isDigit).isEmpty = true →
      clean_digits_int (.str s) = .error ("invalid literal for int: " ++ s)) ∧
    (parseFloat? (String.mk (replaceAllL (replaceAllL s.data tournPat) [','])) = none →
      clean_tournaments_played (.str s) = .int 0) ∧
    astype_str (.str s) = .str s := by
  refine ⟨fun hp => ⟨?_, ?_⟩, fun hp => ?_, fun hd => ?_, fun hp => ?_, rfl⟩
  · rw [clean_currency_float, show valueToString (.str s) = s from rfl, hp]
  · rw [clean_currency_int, show valueToString (.str s) = s from rfl, hp]
  · rw [clean_percent_float, show valueToString (.str s) = s from rfl, hp]
  · rw [clean_digits_int, show valueToString (.str s) = s from rfl, if_pos hd]
  · rw [clean_tournaments_played, show valueToString (.str s) = s from rfl, hp]

/-- C2 amended witness: at the unparsable cell `"N/A"` the currency,
percentage and digit rules error while the count rule coerces to `0`. -/
theorem C2_amended_witness :
    (clean_currency_float (.str ("N/A")) = .error (floatErrMsg (stripCurrency ("N/A"))) ∧
      clean_currency_int (.str ("N/A")) = .error (floatErrMsg (stripCurrency ("N/A")))) ∧
    clean_percent_float (.str ("N/A")) =
      .error (floatErrMsg (String.mk ((String.data ("N/A")).filter (fun c => !(c = '%'))))) ∧
    clean_digits_int (.str ("N/A")) = .error ("invalid literal for int: " ++ ("N/A")) ∧
    clean_tournaments_played (.str ("N/A")) = .int 0 ∧
    astype_str (.str ("N/A")) = .str ("N/A") := by
  have h := C2_amended ("N/A")
  exact ⟨h.1 (by decide), h.2.1 (by decide), h.2.2.1 (by decide), h.2.2.2.1 (by decide),
    h.2.2.2.2⟩

/-- C6: deduplication returns the subsequence of first occurrences: its
length is the number of distinct field tuples, it is a sublist of the
input with the same members, it keeps the first copy of each record and
drops the later ones, and it is idempotent. -/
theorem C6_dedup_properties :
    (∀ l : List (List Value), (drop_duplicates l).length = l.toFinset.card) ∧
    (∀ l : List (List Value), List.Sublist (drop_duplicates l) l) ∧
    (∀ (l : List (List Value)) (a : List Value), a ∈ drop_duplicates l ↔ a ∈ l) ∧
    (∀ (x : List Value) (xs : List (List Value)),
      drop_duplicates (x :: xs) = x :: drop_duplicates (xs.filter (fun y => decide (y ≠ x)))) ∧
    (∀ l : List (List Value), drop_duplicates (drop_duplicates l) = drop_duplicates l) :=
  ⟨fun l => drop_duplicates_length l, fun l => drop_duplicates_sublist l,
    fun l a => @mem_drop_duplicates _ _ a l, fun x xs => drop_duplicates_cons x xs,
    fun l => drop_duplicates_idem l⟩

section StoreLemmas

theorem lookup_append_of_some (m : String) (l l' : List (String × Table)) (t : Table)
    (h : List.lookup m l = some t) : List.lookup m (l ++ l') = some t := by
  induction l with
  | nil => cases h
  | cons p rest ih =>
    obtain ⟨k, v⟩ := p
    by_cases hk : (m == k) = true
    · simpa [List.lookup, hk] using h
    · have hk' : (m == k) = false := by simp [Bool.eq_false_iff, hk]
      rw [List.cons_append, List.lookup, hk']
      rw [List.lookup, hk'] at h
      exact ih h

theorem lookup_append_of_none (m : String) (l l' : List (String × Table))
    (h : List.lookup m l = none) : List.lookup m (l ++ l') = List.lookup m l' := by
  induction l with
  | nil => rfl
  | cons p rest ih =>
    obtain ⟨k, v⟩ := p
    by_cases hk : (m == k) = true
    · rw [List.lookup, hk] at h
      cases h
    · have hk' : (m == k) = false := by simp [Bool.eq_false_iff, hk]
      rw [List.cons_append, List.lookup, hk']
      rw [List.lookup, hk'] at h
      exact ih h

theorem create_of_present (db : DB) (n : String) (s : TableSchema)
    (h : (db.lookup n).isSome = true) : createTableIfNotExists db n s = db := by
  unfold createTableIfNotExists
  cases hl : db.lookup n with
  | some t => rfl
  | none => rw [hl] at h; cases h

theorem lookup_create_preserved (db : DB) (n m : String) (s : TableSchema) (t : Table)
    (h : db.lookup m = some t) : (createTableIfNotExists db n s).lookup m = some t := by
  unfold createTableIfNotExists
  cases hl : db.lookup n with
  | some u => exact h
  | none =>
    show List.lookup m (db.tables ++ [(n, { schema := s, rows := [] })]) = some t
    exact lookup_append_of_some m db.tables _ t h

theorem lookup_create_isSome_mono (db : DB) (n m : String) (s : TableSchema)
    (h : (db.lookup m).isSome = true) :
    ((createTableIfNotExists db n s).lookup m).isSome = true := by
  obtain ⟨t, ht⟩ := Option.isSome_iff_exists.1 h
  rw [lookup_create_preserved db n m s t ht]
  rfl

theorem lookup_create_isSome_self (db : DB) (n : String) (s : TableSchema) :
    ((createTableIfNotExists db n s).lookup n).isSome = true := by
  unfold createTableIfNotExists
  cases hl : db.lookup n with
  | some t => rw [hl]; rfl
  | none =>
    show (List.lookup n (db.tables ++ [(n, { schema := s, rows := [] })])).isSome = true
    rw [lookup_append_of_none n db.tables _ hl]
    simp [List.lookup]

theorem init_database_lookup_preserved (db : DB) (m : String) (t : Table)
    (h : db.lookup m = some t) : (init_database db).lookup m = some t := by
  unfold init_database
  exact lookup_create_preserved _ _ _ _ _ (lookup_create_preserved _ _ _ _ _
    (lookup_create_preserved _ _ _ _ _ (lookup_create_preserved _ _ _ _ _ h)))

theorem init_database_has_all (db : DB) :
    (((init_database db).lookup ("countries")).isSome = true) ∧
    (((init_database db).lookup ("players")).isSome = true) ∧
    (((init_database db).lookup ("tournaments")).isSome = true) ∧
    (((init_database db).lookup ("teams")).isSome = true) := by
  unfold init_database
  refine ⟨?_, ?_, ?_, ?_⟩
  · exact lookup_create_isSome_mono _ _ _ _ (lookup_create_isSome_mono _ _ _ _
      (lookup_create_isSome_mono _ _ _ _ (lookup_create_isSome_self _ _ _)))
  · exact lookup_create_isSome_mono _ _ _ _ (lookup_create_isSome_mono _ _ _ _
      (lookup_create_isSome_self _ _ _))
  · exact lookup_create_isSome_mono _ _ _ _ (lookup_create_isSome_self _ _ _)
  · exact lookup_create_isSome_self _ _ _

theorem init_database_idem (db : DB) :
    init_database (init_database db) = init_database db := by
  obtain ⟨hc, hp, ht, hm⟩ := init_database_has_all db
  show createTableIfNotExists (createTableIfNotExists (createTableIfNotExists
    (createTableIfNotExists (init_database db) ("countries") countriesSchema)
    ("players") playersSchema) ("tournaments") tournamentsSchema) ("teams") teamsSchema =
    init_database db
  rw [create_of_present _ _ _ hc, create_of_present _ _ _ hp, create_of_present _ _ _ ht,
    create_of_present _ _ _ hm]

end StoreLemmas

/-- C5 counterexample: the non-key columns of the `tournaments` relation
created by `init_database` are not exactly the canonical field list
`tournament_name, prize_pool, game` — the table also declares
`participate_team` and `no_of_player`. -/
theorem C5_counterexample :
    tournamentsSchema.columns.map Prod.fst ≠ tournamentsCols := by
  decide

/-- C5 as amended: the schema initializer is idempotent and preserves any
existing table (rows and columns untouched); each created relation has a
surrogate auto-increment key; countries, players and teams carry exactly
the canonical field lists, while tournaments carries the canonical three
plus `participate_team` and `no_of_player`. -/
theorem C5_amended (db : DB) (name : String) (t : Table)
    (h : db.lookup name = some t) :
    init_database (init_database db) = init_database db ∧
    (init_database db).lookup name = some t ∧
    countriesSchema.surrogateKey = "id" ∧ playersSchema.surrogateKey = "rank" ∧
    tournamentsSchema.surrogateKey = "id" ∧ teamsSchema.surrogateKey = "id" ∧
    countriesSchema.columns.map Prod.fst = countriesCols ∧
    playersSchema.columns.map Prod.fst = playersCols ∧
    teamsSchema.columns.map Prod.fst = teamsCols ∧
    tournamentsSchema.columns.map Prod.fst =
      tournamentsCols ++ ["participate_team", "no_of_player"] :=
  ⟨init_database_idem db, init_database_lookup_preserved db name t h, rfl, rfl, rfl, rfl,
    by decide, by decide, by decide, by decide⟩

/-- C5 witness: initializing twice over a store already holding a teams
table with one row leaves that table exactly as it was. -/
theorem C5_amended_witness :
    init_database (init_database
        { tables := [("teams",
          { schema := teamsSchema, rows := [[.str ("OldTeam"), .int 1, .int 2]] })] }) =
      init_database
        { tables := [("teams",
          { schema := teamsSchema, rows := [[.str ("OldTeam"), .int 1, .int 2]] })] } ∧
    (init_database
        { tables := [("teams",
          { schema := teamsSchema, rows := [[.str ("OldTeam"), .int 1, .int 2]] })] }).lookup ("teams") =
      some { schema := teamsSchema, rows := [[.str ("OldTeam"), .int 1, .int 2]] } ∧
    countriesSchema.surrogateKey = "id" ∧ playersSchema.surrogateKey = "rank" ∧
    tournamentsSchema.surrogateKey = "id" ∧ teamsSchema.surrogateKey = "id" ∧
    countriesSchema.columns.map Prod.fst = countriesCols ∧
    playersSchema.columns.map Prod.fst = playersCols ∧
    teamsSchema.columns.map Prod.fst = teamsCols ∧
    tournamentsSchema.columns.map Prod.fst =
      tournamentsCols ++ ["participate_team", "no_of_player"] :=
  C5_amended
    { tables := [("teams",
        { schema := teamsSchema, rows := [[.str ("OldTeam"), .int 1, .int 2]] })] }
    ("teams") { schema := teamsSchema, rows := [[.str ("OldTeam"), .int 1, .int 2]] } rfl

/-- C3 counterexample: when every page fails, the aggregator's result is
`None` — the absence of a table — not an empty Raw Table. -/
theorem C3_counterexample :
    fetch_multiple_tables [none, none] = none ∧
    fetch_multiple_tables [none, none] ≠ some { cols := [], rows := [] } :=
  ⟨rfl, by decide⟩

/-- C3 as amended: the aggregator's result contains exactly the rows of
the successful pages, in locator order then intra-page row order; when
every page fails the result is `None` (no table), and when at least one
page succeeds it is the concatenation of the successes. -/
theorem C3_amended (pages : List (Option DataFrame)) :
    (∀ df : DataFrame, fetch_multiple_tables pages = some df →
      df.rows = ((pages.filterMap id).map DataFrame.rows).flatten) ∧
    (pages.filterMap id = [] → fetch_multiple_tables pages = none) ∧
    (pages.filterMap id ≠ [] →
      fetch_multiple_tables pages = some (concatFrames (pages.filterMap id))) := by
  have hunfold : fetch_multiple_tables pages =
      if (pages.filterMap id).isEmpty then none
      else some (concatFrames (pages.filterMap id)) := rfl
  by_cases he : pages.filterMap id = []
  · refine ⟨?_, fun _ => ?_, fun hne => absurd he hne⟩
    · intro df hdf
      rw [hunfold, if_pos (by simp [he])] at hdf
      cases hdf
    · rw [hunfold, if_pos (by simp [he])]
  · have hne' : (pages.filterMap id).isEmpty = false := by
      cases hl : pages.filterMap id with
      | nil => exact absurd hl he
      | cons a as => rfl
    refine ⟨?_, fun h0 => absurd h0 he, fun _ => ?_⟩
    · intro df hdf
      rw [hunfold, if_neg (by simp [hne'])] at hdf
      have hdf' := (Option.some.inj hdf).symm
      subst hdf'
      rfl
    · rw [hunfold, if_neg (by simp [hne'])]

/-- C3 witness: with pages `[A, failed, B]` the aggregate holds exactly
A's rows then B's rows; with no pages the result is `None`. -/
theorem C3_amended_witness :
    (concatFrames [pageA, pageB]).rows =
      (([some pageA, none, some pageB].filterMap id).map DataFrame.rows).flatten ∧
    fetch_multiple_tables ([] : List (Option DataFrame)) = none ∧
    fetch_multiple_tables [some pageA, none, some pageB] =
      some (concatFrames ([some pageA, none, some pageB].filterMap id)) :=
  ⟨(C3_amended [some pageA, none, some pageB]).1 (concatFrames [pageA, pageB]) (by decide),
    (C3_amended ([] : List (Option DataFrame))).2.1 rfl,
    (C3_amended [some pageA, none, some pageB]).2.2 (by decide)⟩

/-- C10: calling the bulk loader with a missing (`None`) or empty frame
inserts nothing, opens no store connection, prints the warning status
line and leaves the store untouched. -/
theorem C10_loader_guard (df : Option DataFrame) (table : String)
    (columns : List String) (db : DB)
    (h : df = none ∨ ∃ d : DataFrame, df = some d ∧ d.rows = []) :
    insert_into_mysql df table columns db =
      { db := db, log := ["⚠️ No data for table " ++ table], connectionsOpened := 0 } := by
  rcases h with rfl | ⟨d, rfl, hrows⟩
  · rfl
  · simp [insert_into_mysql, hrows]

/-- C10 witness: the loader on a missing frame, and on a present but
empty frame, returns the warning outcome with zero connections. -/
theorem C10_loader_guard_witness :
    insert_into_mysql none ("teams") teamsCols { tables := [] } =
      { db := { tables := [] }, log := ["⚠️ No data for table " ++ "teams"]
        connectionsOpened := 0 } ∧
    insert_into_mysql (some { cols := teamsCols, rows := [] }) ("teams") teamsCols
        { tables := [] } =
      { db := { tables := [] }, log := ["⚠️ No data for table " ++ "teams"]
        connectionsOpened := 0 } :=
  ⟨C10_loader_guard none ("teams") teamsCols { tables := [] } (Or.inl rfl),
    C10_loader_guard (some { cols := teamsCols, rows := [] }) ("teams") teamsCols
      { tables := [] } (Or.inr ⟨_, rfl, rfl⟩)⟩

/-- C7 counterexample: on a raw page written exactly as the spec's
example (three columns, no rank column), `scrape_teams` raises a length
mismatch instead of loading, and the teams relation stays empty — it does
not contain the two expected rows. -/
theorem C7_counterexample :
    (scrape_teams [some teamsRawPage3] (init_database { tables := [] })).err =
      some ("Length mismatch: Expected axis has 3 elements, new values have 4 elements") ∧
    ((scrape_teams [some teamsRawPage3]
        (init_database { tables := [] })).db.lookup ("teams")).map Table.rows = some [] :=
  ⟨rfl, rfl⟩

/-- C7 as amended: with the rank column the real source pages carry (four
raw columns), the pipeline loads exactly the two deduplicated cleaned
rows `TeamA/500/10` and `TeamB/300/4`. -/
theorem C7_amended :
    (scrape_teams [some teamsRawPage4] (init_database { tables := [] })).err = none ∧
    ((scrape_teams [some teamsRawPage4]
        (init_database { tables := [] })).db.lookup ("teams")).map Table.rows =
      some [[.str ("TeamA"), .int 500, .int 10], [.str ("TeamB"), .int 300, .int 4]] :=
  ⟨rfl, rfl⟩

/-- C1 counterexample: a countries page with three columns instead of the
expected seven makes the whole run abort — no `SchemaMismatch` warning,
no skipping, and the three later datasets never start. -/
theorem C1_counterexample :
    (main_run envCountriesBad { tables := [] }).err =
      some ("Length mismatch: Expected axis has 3 elements, new values have 7 elements") ∧
    (main_run envCountriesBad { tables := [] }).log =
      ["🚀 Starting Esports Scraper + DB Inserter", "\n🌍 Scraping Countries"] :=
  ⟨rfl, rfl⟩

/-- C1 as amended: the column count is never validated — relabelling a
raw table whose column count differs from the expected seven raises an
uncaught length-mismatch error, the dataset is not skipped, and the run
aborts so that no later dataset proceeds. -/
theorem C1_amended (df : DataFrame) (env : Env) (db : DB)
    (hc : env.countries = some df) (h : df.cols.length ≠ 7) :
    (main_run env db).err.isSome = true ∧
    (main_run env db).log =
      ["🚀 Starting Esports Scraper + DB Inserter", "\n🌍 Scraping Countries"] := by
  have hne7 : ¬((["rank"] ++ countriesCols).length = df.cols.length) := fun hh =>
    h (by simpa [countriesCols] using hh.symm)
  have hproc : processCountries df = .error ("Length mismatch: Expected axis has " ++
      toString df.cols.length ++ " elements, new values have " ++
      toString (["rank"] ++ countriesCols).length ++ " elements") := by
    rw [processCountries, setColumns, if_neg hne7]
    rfl
  have hsc : ∀ dbx : DB, scrape_countries env.countries dbx =
      { db := dbx, log := ["\n🌍 Scraping Countries"]
        err := some ("Length mismatch: Expected axis has " ++ toString df.cols.length ++
          " elements, new values have " ++ toString (["rank"] ++ countriesCols).length ++
          " elements") } := by
    intro dbx
    rw [hc]
    simp only [scrape_countries, hproc]
  have hmain : main_run env db =
      { db := init_database db
        log := ["🚀 Starting Esports Scraper + DB Inserter", "\n🌍 Scraping Countries"]
        err := some ("Length mismatch: Expected axis has " ++ toString df.cols.length ++
          " elements, new values have " ++ toString (["rank"] ++ countriesCols).length ++
          " elements") } := by
    simp only [main_run, andThen, hsc]
    rfl
  rw [hmain]
  exact ⟨rfl, rfl⟩

/-- C1 amended witness: the three-column countries page at a concrete
store aborts the run right after the countries header. -/
theorem C1_amended_witness :
    (main_run envCountriesBad { tables := [] }).err.isSome = true ∧
    (main_run envCountriesBad { tables := [] }).log =
      ["🚀 Starting Esports Scraper + DB Inserter", "\n🌍 Scraping Countries"] :=
  C1_amended countriesBadPage envCountriesBad { tables := [] } rfl (by decide)

theorem insert_some_log_status (d : DataFrame) (table : String) (columns : List String)
    (db : DB) :
    (insert_into_mysql (some d) table columns db).log = ["⚠️ No data for table " ++ table] ∨
    (insert_into_mysql (some d) table columns db).log = ["❌ Insert error in " ++ table] ∨
    ∃ n : Nat, (insert_into_mysql (some d) table columns db).log =
      ["✅ Inserted " ++ toString n ++ " rows into " ++ table] := by
  simp only [insert_into_mysql]
  by_cases hrows : d.rows.isEmpty = true
  · rw [if_pos hrows]
    exact Or.inl rfl
  · rw [if_neg hrows]
    cases hl : db.lookup table with
    | some t => exact Or.inr (Or.inr ⟨(selectCols d columns).rows.length, rfl⟩)
    | none => exact Or.inr (Or.inl rfl)

theorem scrape_countries_status (fetched : Option DataFrame) (db : DB)
    (h : (scrape_countries fetched db).err = none) :
    ∃ s ∈ (scrape_countries fetched db).log, isCountriesStatus s := by
  cases fetched with
  | none =>
    refine ⟨"⚠️ No country data found.", ?_, Or.inl rfl⟩
    simp [scrape_countries]
  | some df =>
    cases hp : processCountries df with
    | error e =>
      rw [show (scrape_countries (some df) db).err = some e from by
        simp only [scrape_countries, hp]] at h
      cases h
    | ok cleaned =>
      have hlog : (scrape_countries (some df) db).log =
          ["\n🌍 Scraping Countries"] ++
            (insert_into_mysql (some cleaned) ("countries") countriesCols db).log := by
        simp only [scrape_countries, hp]
      rcases insert_some_log_status cleaned ("countries") countriesCols db with
        h1 | h1 | ⟨n, h1⟩
      · exact ⟨_, by rw [hlog, h1]; simp, Or.inr (Or.inl rfl)⟩
      · exact ⟨_, by rw [hlog, h1]; simp, Or.inr (Or.inr (Or.inl rfl))⟩
      · exact ⟨_, by rw [hlog, h1]; simp, Or.inr (Or.inr (Or.inr ⟨n, rfl⟩))⟩

theorem scrape_players_status (pages : List (Option DataFrame)) (db : DB)
    (h : (scrape_players pages db).err = none) :
    ∃ s ∈ (scrape_players pages db).log, isPlayersStatus s := by
  cases hf : fetch_multiple_tables pages with
  | none =>
    refine ⟨"❌ Failed to fetch player data.", ?_, Or.inl rfl⟩
    simp [scrape_players, hf]
  | some df =>
    cases hp : processPlayers df with
    | error e =>
      rw [show (scrape_players pages db).err = some e from by
        simp only [scrape_players, hf, hp]] at h
      cases h
    | ok cleaned =>
      have hlog : (scrape_players pages db).log =
          ["\n👥 Scraping Players", availColsMsg ("players") df.cols] ++
            (insert_into_mysql (some cleaned) ("players") playersCols db).log := by
        simp only [scrape_players, hf, hp]
      rcases insert_some_log_status cleaned ("players") playersCols db with
        h1 | h1 | ⟨n, h1⟩
      · exact ⟨_, by rw [hlog, h1]; simp, Or.inr (Or.inl rfl)⟩
      · exact ⟨_, by rw [hlog, h1]; simp, Or.inr (Or.inr (Or.inl rfl))⟩
      · exact ⟨_, by rw [hlog, h1]; simp, Or.inr (Or.inr (Or.inr ⟨n, rfl⟩))⟩

theorem scrape_tournaments_status (pages : List (Option DataFrame)) (db : DB)
    (h : (scrape_tournaments pages db).err = none) :
    ∃ s ∈ (scrape_tournaments pages db).log, isTournamentsStatus s := by
  by_cases he : (pages.filterMap id).isEmpty = true
  · refine ⟨"❌ No tournament data fetched.", ?_, Or.inl rfl⟩
    simp [scrape_tournaments, he]
  · cases hp : processTournaments (concatFrames (pages.filterMap id)) with
    | error e =>
      rw [show (scrape_tournaments pages db).err = some e from by
        simp only [scrape_tournaments, he, hp]
        rfl] at h
      cases h
    | ok cleaned =>
      have hlog : (scrape_tournaments pages db).log =
          ["\n🏆 Scraping Top Tournaments (First 4 Columns Only)"] ++
            (insert_into_mysql (some cleaned) ("tournaments") tournamentsCols db).log := by
        simp only [scrape_tournaments, he, hp]
        rfl
      rcases insert_some_log_status cleaned ("tournaments") tournamentsCols db with
        h1 | h1 | ⟨n, h1⟩
      · exact ⟨_, by rw [hlog, h1]; simp, Or.inr (Or.inl rfl)⟩
      · exact ⟨_, by rw [hlog, h1]; simp, Or.inr (Or.inr (Or.inl rfl))⟩
      · exact ⟨_, by rw [hlog, h1]; simp, Or.inr (Or.inr (Or.inr ⟨n, rfl⟩))⟩

theorem scrape_teams_status (pages : List (Option DataFrame)) (db : DB)
    (h : (scrape_teams pages db).err = none) :
    ∃ s ∈ (scrape_teams pages db).log, isTeamsStatus s := by
  cases hf : fetch_multiple_tables pages with
  | none =>
    refine ⟨"❌ Failed to fetch team data.", ?_, Or.inl rfl⟩
    simp [scrape_teams, hf]
  | some df =>
    cases hp : processTeams df with
    | error e =>
      rw [show (scrape_teams pages db).err = some e from by
        simp only [scrape_teams, hf, hp]] at h
      cases h
    | ok cleaned =>
      have hlog : (scrape_teams pages db).log =
          ["\n🎮 Scraping Teams", availColsMsg ("teams") df.cols] ++
            (insert_into_mysql (some cleaned) ("teams") teamsCols db).log := by
        simp only [scrape_teams, hf, hp]
      rcases insert_some_log_status cleaned ("teams") teamsCols db with
        h1 | h1 | ⟨n, h1⟩
      · exact ⟨_, by rw [hlog, h1]; simp, Or.inr (Or.inl rfl)⟩
      · exact ⟨_, by rw [hlog, h1]; simp, Or.inr (Or.inr (Or.inl rfl))⟩
      · exact ⟨_, by rw [hlog, h1]; simp, Or.inr (Or.inr (Or.inr ⟨n, rfl⟩))⟩

/-- C9 counterexample: with a mismatched teams page, the run aborts after
printing the teams header and columns line — no teams status line (rows
inserted, or a failure reason) is ever produced, and the closing success
line is missing. -/
theorem C9_counterexample :
    (main_run envTeamsBad { tables := [] }).err =
      some ("Length mismatch: Expected axis has 3 elements, new values have 4 elements") ∧
    (main_run envTeamsBad { tables := [] }).log =
      ["🚀 Starting Esports Scraper + DB Inserter", "\n🌍 Scraping Countries",
       "⚠️ No country data found.", "\n👥 Scraping Players",
       "❌ Failed to fetch player data.",
       "\n🏆 Scraping Top Tournaments (First 4 Columns Only)",
       "❌ No tournament data fetched.", "\n🎮 Scraping Teams",
       availColsMsg ("teams") (["c0", "c1", "c2"])] :=
  ⟨rfl, rfl⟩

/-- C9 as amended: whenever no dataset raises, the entry point runs the
four datasets in the fixed source order countries, players, tournaments,
teams, and the log decomposes into the start banner, one segment per
dataset each containing a status line (rows inserted, or the failure
reason — also when zero rows result), and the closing line. -/
theorem C9_amended (env : Env) (db : DB) (h : (main_run env db).err = none) :
    ∃ l1 l2 l3 l4 : List String,
      (main_run env db).log =
        ["🚀 Starting Esports Scraper + DB Inserter"] ++ l1 ++ l2 ++ l3 ++ l4 ++
          ["\n✅ All data scraped and inserted successfully!"] ∧
      (∃ s ∈ l1, isCountriesStatus s) ∧ (∃ s ∈ l2, isPlayersStatus s) ∧
      (∃ s ∈ l3, isTournamentsStatus s) ∧ (∃ s ∈ l4, isTeamsStatus s) := by
  cases e1 : (scrape_countries env.countries (init_database db)).err with
  | some e =>
    rw [show (main_run env db).err = some e from by simp only [main_run, andThen, e1]] at h
    cases h
  | none =>
  cases e2 : (scrape_players env.players
      (scrape_countries env.countries (init_database db)).db).err with
  | some e =>
    rw [show (main_run env db).err = some e from by
      simp only [main_run, andThen, e1, e2]] at h
    cases h
  | none =>
  cases e3 : (scrape_tournaments env.tournaments
      (scrape_players env.players
        (scrape_countries env.countries (init_database db)).db).db).err with
  | some e =>
    rw [show (main_run env db).err = some e from by
      simp only [main_run, andThen, e1, e2, e3]] at h
    cases h
  | none =>
  cases e4 : (scrape_teams env.teams
      (scrape_tournaments env.tournaments
        (scrape_players env.players
          (scrape_countries env.countries (init_database db)).db).db).db).err with
  | some e =>
    rw [show (main_run env db).err = some e from by
      simp only [main_run, andThen, e1, e2, e3, e4]] at h
    cases h
  | none =>
    refine ⟨(scrape_countries env.countries (init_database db)).log,
      (scrape_players env.players
        (scrape_countries env.countries (init_database db)).db).log,
      (scrape_tournaments env.tournaments
        (scrape_players env.players
          (scrape_countries env.countries (init_database db)).db).db).log,
      (scrape_teams env.teams
        (scrape_tournaments env.tournaments
          (scrape_players env.players
            (scrape_countries env.countries (init_database db)).db).db).db).log,
      ?_, scrape_countries_status _ _ e1, scrape_players_status _ _ e2,
      scrape_tournaments_status _ _ e3, scrape_teams_status _ _ e4⟩
    simp only [main_run, andThen, e1, e2, e3, e4]

/-- C9 witness: a run in which every fetch fails still prints, in order,
a status line for each of the four datasets (each reporting its failure
reason with zero rows) between the start banner and the closing line. -/
theorem C9_amended_witness :
    ∃ l1 l2 l3 l4 : List String,
      (main_run envAllEmpty { tables := [] }).log =
        ["🚀 Starting Esports Scraper + DB Inserter"] ++ l1 ++ l2 ++ l3 ++ l4 ++
          ["\n✅ All data scraped and inserted successfully!"] ∧
      (∃ s ∈ l1, isCountriesStatus s) ∧ (∃ s ∈ l2, isPlayersStatus s) ∧
      (∃ s ∈ l3, isTournamentsStatus s) ∧ (∃ s ∈ l4, isTeamsStatus s) :=
  C9_amended envAllEmpty { tables := [] } rfl
